import Mathlib

/-!
# Verification of the sportspredictor frontend against its specification

This development embeds, in Lean 4, the parts of the `sportspredictor`
repository that the specification's claims speak about:

* the axios ETag cache of `src/api.ts` (request/response interceptors and
  their shared `etagCache` record);
* the stage-label table and rendering / polling logic of
  `src/frontend/src/pages/LiveMatchPage.tsx`;
* the HTTP call sites of every page component (which ones go through the
  shared `api` axios instance, which issue direct `fetch` calls);
* both `ConfidenceBadge` implementations
  (`src/frontend/src/components/ConfidenceBadge.tsx` and the variant that
  follows `Header` in `src/frontend/src/components/Header.tsx`);
* the Fallback-Prior Resolver, which is backend code absent from the
  frontend sources and is therefore modelled from the specification.

JavaScript numbers are modelled as rationals (`ℚ`): every numeric literal
involved in the claims (0.5, 0.55, 0.7, 0.52) is exactly representable as
an IEEE double up to a rounding that does not affect any comparison used
below, so `ℚ` comparisons agree with the JS `>=` comparisons on all inputs
considered.  Response bodies are opaque and modelled as `String`.
-/

/-! ## The axios ETag cache (`src/api.ts`) -/

/-- The slice of an axios request config that the interceptors in
`src/api.ts` read or write: HTTP method, URL, the `JSON.stringify`d params
(already serialized, since the interceptor only ever uses the serialized
form), and the `If-None-Match` header that the request interceptor may set. -/
structure AxiosConfig where
  method : String
  url : String
  params : String
  ifNoneMatch : Option String
deriving DecidableEq, Repr

/-- One entry of the `etagCache` record: `{ etag: string; data: unknown }`. -/
structure CacheEntry where
  etag : String
  data : String
deriving DecidableEq, Repr

/-- The `etagCache : Record<string, { etag, data }>` object, as an
association list; `etagCache[key] = v` is modelled by prepending, and
lookup takes the most recent binding, matching JS property assignment. -/
def EtagCache := List (String × CacheEntry)

instance : DecidableEq EtagCache := inferInstanceAs (DecidableEq (List (String × CacheEntry)))

/-- The cache key both interceptors compute:
`` `${config.method}:${config.url}:${JSON.stringify(config.params ?? {})}` ``. -/
def cacheKey (method url params : String) : String :=
  method ++ ":" ++ url ++ ":" ++ params

/-- Key of a request config. -/
def AxiosConfig.key (c : AxiosConfig) : String :=
  cacheKey c.method c.url c.params

/-- The request interceptor (`api.interceptors.request.use`): if the cache
holds an entry for the request's key, set the `If-None-Match` header to the
stored etag; in every case the (possibly edited) config is returned and the
request proceeds upstream — the interceptor has no way to suppress it. -/
def requestInterceptor (cache : EtagCache) (config : AxiosConfig) : AxiosConfig :=
  match List.lookup config.key cache with
  | some cached => { config with ifNoneMatch := some cached.etag }
  | none => config

/-- The slice of an axios response the interceptors use: status, body,
the `etag` response header, and the request config it answered. -/
structure AxiosResponse where
  status : Nat
  data : String
  etagHeader : Option String
  config : AxiosConfig
deriving DecidableEq, Repr

/-- An axios error as seen by the rejection handler: `error.response` is
present for HTTP-status failures and absent for network failures;
`error.config` is the request config. -/
structure AxiosError where
  response : Option AxiosResponse
  config : AxiosConfig
deriving DecidableEq, Repr

/-- The fulfilled branch of `api.interceptors.response.use`: when the
response carries an `etag` header, store `{ etag, data }` under the
request's key; the response itself is passed through unchanged. -/
def responseFulfilled (cache : EtagCache) (r : AxiosResponse) : EtagCache × AxiosResponse :=
  match r.etagHeader with
  | some e => ((r.config.key, ⟨e, r.data⟩) :: cache, r)
  | none => (cache, r)

/-- The rejected branch of `api.interceptors.response.use`: only when
`error.response?.status === 304` and the cache holds an entry for the key
does the interceptor resolve with `{ ...error.response, status: 200,
data: cached.data }`; every other failure is re-rejected unchanged. -/
def responseRejected (cache : EtagCache) (e : AxiosError) : Except AxiosError AxiosResponse :=
  match e.response with
  | some resp =>
    if resp.status = 304 then
      match List.lookup e.config.key cache with
      | some cached => Except.ok { resp with status := 200, data := cached.data }
      | none => Except.error e
    else Except.error e
  | none => Except.error e

/-- How the upstream answers one request: a 2xx response (with optional
etag header and a body), a 304 Not Modified, or a failure (an HTTP error
status, or none for a network error). -/
inductive Upstream where
  | ok (status : Nat) (etagHeader : Option String) (data : String)
  | notModified
  | fail (status : Option Nat)
deriving DecidableEq, Repr

/-- One full pass of a request through the `api` axios instance of
`src/api.ts`: the request interceptor runs, the request is sent upstream
(unconditionally — nothing in `src/api.ts` short-circuits dispatch), and
the answer passes the response interceptors.  Returns the cache after the
pass, the caller's outcome, and the number of upstream HTTP calls made by
the pass. -/
def sendRequest (cache : EtagCache) (cfg : AxiosConfig) (up : Upstream) :
    EtagCache × Except AxiosError AxiosResponse × Nat :=
  let cfg' := requestInterceptor cache cfg
  match up with
  | .ok status etagH data =>
    let out := responseFulfilled cache ⟨status, data, etagH, cfg'⟩
    (out.1, Except.ok out.2, 1)
  | .notModified =>
    let resp : AxiosResponse := ⟨304, "", none, cfg'⟩
    (cache, responseRejected cache ⟨some resp, cfg'⟩, 1)
  | .fail st =>
    let e : AxiosError := ⟨st.map (fun s => ⟨s, "", none, cfg'⟩), cfg'⟩
    (cache, responseRejected cache e, 1)

/-- Upstream calls made by a batch of concurrent requests inside a single
missing/expired window: each caller's request is dispatched against the
same cache state, before any of their responses land (that is what makes
the window concurrent), and the per-pass upstream counts add up. -/
def concurrentUpstreamCalls (cache : EtagCache) (reqs : List (AxiosConfig × Upstream)) : Nat :=
  (reqs.map (fun r => (sendRequest cache r.1 r.2).2.2)).sum

/-! ## Stage labels and rendering on the live page
(`src/frontend/src/pages/LiveMatchPage.tsx`) -/

/-- The `STAGE_LABELS` map of `LiveMatchPage.tsx` (the identical table also
appears in `T20WorldCupPage.tsx`): the set of `prediction_stage` keys the
live page handles, with their display labels. -/
def STAGE_LABELS : List (String × String) :=
  [("pre_toss", "Pre-toss analysis — based on historical priors only"),
   ("post_toss", "Post-toss — toss result factored in"),
   ("innings_break", "Innings break — projecting chase outcome"),
   ("live", "Live — updating every 30s"),
   ("completed", "Match completed — final analysis"),
   ("chase", "Chase in progress — tracking target")]

/-- The seven `MatchStage` values enumerated by the specification's data
model (spec §3, MatchStage). -/
def specMatchStages : List String :=
  ["pre_toss", "post_toss", "innings_1_live", "innings_break",
   "chase_live", "super_over", "completed"]

/-- The fields of the `LiveResponse` payload that decide what the live
page's results section renders for the "Total score" card and the
stage/confidence provenance row. -/
structure LiveResponse where
  projected_total : Option Int
  prediction_stage : Option String
  confidence : Option ℚ
  error : Option String
deriving DecidableEq, Repr

/-- The page's active prediction type (`activeType` state), `none` before
any button press. -/
def PredictionType := Option String

/-- Whether the provenance row renders (LiveMatchPage.tsx:276-291): the
results block requires `result && !result.error`, and the row itself
requires `result.prediction_stage && STAGE_LABELS[result.prediction_stage]`
(a JS truthiness test, so an empty-string stage also fails it). -/
def stageMarkerRendered (r : LiveResponse) : Bool :=
  r.error.isNone &&
    (match r.prediction_stage with
     | some s => !(s == "") && (List.lookup s STAGE_LABELS).isSome
     | none => false)

/-- Whether a numeric projected total renders on the "Total score" card
(LiveMatchPage.tsx:317-324): the results block requires
`result && !result.error`, the card requires `activeType === 'score'`, and
the number (rather than "Prediction pending") requires
`projected_total !== null && projected_total !== undefined`. -/
def scoreNumberRendered (r : LiveResponse) (activeType : Option String) : Bool :=
  r.error.isNone && (activeType == some "score") && r.projected_total.isSome

/-! ## The auto-refresh poller of the live page
(`LiveMatchPage.tsx:103-129`)

React semantics used by the model: after a commit, effects whose
dependencies changed run in declaration order; the stage effect
(`useEffect(..., [predictionStage])`, line 105) precedes the date/match
effect (`useEffect(..., [dateStr, matchNumber])`, line 126).  Each effect
first clears any active interval (cleanup plus the explicit clear at its
head), and only the stage effect ever starts one. -/

/-- Whether the stage effect starts the 30s poll after clearing:
`if (!predictionStage || predictionStage === 'completed') return;` —
polling starts only for a present, non-empty stage other than
`"completed"` (JS truthiness makes the empty string falsy too). -/
def stageStartsPoll : Option String → Bool
  | some st => !(st == "") && !(st == "completed")
  | none => false

/-- The page state the poller model tracks: whether a polling interval is
registered, the `prediction_stage` of the last result, and how many
background `/predict/live` requests the interval has issued. -/
structure PollState where
  poll : Bool
  stage : Option String
  requests : Nat
deriving DecidableEq, Repr

/-- Initial page state: no result yet, no interval registered. -/
def initPollState : PollState := ⟨false, none, 0⟩

/-- Events the poller reacts to: a commit with the (possibly unchanged)
new `prediction_stage` and whether `dateStr`/`matchNumber` changed in it,
or a 30-second interval tick. -/
inductive PageEvent where
  | render (newStage : Option String) (dateOrMatchChanged : Bool)
  | tick
deriving DecidableEq, Repr

/-- One step of the poller: on a commit, the stage effect re-runs exactly
when `predictionStage` changed (clear, then start iff the new stage is
live), and the date/match effect, running after it, clears the interval
when the date or match changed; a tick issues one background
`/predict/live` request iff an interval is registered. -/
def stepEvent (s : PollState) : PageEvent → PollState
  | .render newStage dateOrMatchChanged =>
    let afterStageEffect := if newStage = s.stage then s.poll else stageStartsPoll newStage
    { s with
      stage := newStage
      poll := if dateOrMatchChanged then false else afterStageEffect }
  | .tick => if s.poll then { s with requests := s.requests + 1 } else s

/-- The page state after a sequence of events from the initial state. -/
def runEvents (events : List PageEvent) : PollState :=
  events.foldl stepEvent initPollState

/-! ## HTTP call sites of the pages (claim about the shared `api` instance) -/

/-- How a page issues an HTTP request: through the shared `api` axios
instance of `src/api.ts` (which carries the ETag cache), or through a
direct `fetch` to the backend URL. -/
inductive RequestMechanism where
  | sharedApi
  | directFetch
deriving DecidableEq, Repr

/-- One HTTP call site in a page component. -/
structure RequestSite where
  page : String
  endpoint : String
  mechanism : RequestMechanism
deriving DecidableEq, Repr

/-- Every HTTP call site of the page components, transcribed from the
source: `LiveMatchPage.tsx` (prediction page) and `T20WorldCupPage.tsx`
(both revisions) call `api.get`; `PreMatchPage` and the decision-assistant
revision of `LiveMatchPage` call `fetch` on the backend URL directly. -/
def requestSites : List RequestSite :=
  [⟨"LiveMatchPage", "/matches", .sharedApi⟩,
   ⟨"LiveMatchPage", "/predict/live", .sharedApi⟩,
   ⟨"T20WorldCupPage", "/t20wc/matches", .sharedApi⟩,
   ⟨"T20WorldCupPage", "/predict/pre-match", .sharedApi⟩,
   ⟨"T20WorldCupPage", "/predict/live", .sharedApi⟩,
   ⟨"PreMatchPage", "/update-match-context", .directFetch⟩,
   ⟨"PreMatchPage", "/predict/winner", .directFetch⟩,
   ⟨"PreMatchPage", "/predict/powerplay", .directFetch⟩,
   ⟨"PreMatchPage", "/predict/score", .directFetch⟩,
   ⟨"PreMatchPage", "/predict/wickets", .directFetch⟩,
   ⟨"LiveDecisionAssistant", "/update-match-context", .directFetch⟩,
   ⟨"LiveDecisionAssistant", "/live-match-state", .directFetch⟩,
   ⟨"LiveDecisionAssistant", "/predict/winner-live", .directFetch⟩,
   ⟨"LiveDecisionAssistant", "/assist/decision", .directFetch⟩]

/-! ## The two ConfidenceBadge implementations -/

/-- Badge color computed by the standalone component
(`src/frontend/src/components/ConfidenceBadge.tsx:14-17`): green at
`confidence >= 0.7`, amber at `confidence >= 0.55`, gray below (the JS
literals 0.7 and 0.55 are written `mkRat 7 10` and `mkRat 11 20`). -/
def confidenceBadgeColor (confidence : ℚ) : String :=
  if mkRat 7 10 ≤ confidence then "#22c55e"
  else if mkRat 11 20 ≤ confidence then "#f59e0b"
  else "#94a3b8"

/-- Badge color computed by the variant defined after `Header`
(`src/frontend/src/components/Header.tsx:160`): green at
`confidence >= 0.7`, amber at `confidence >= 0.5`, gray below (the JS
literals 0.7 and 0.5 are written `mkRat 7 10` and `mkRat 1 2`). -/
def headerBadgeColor (confidence : ℚ) : String :=
  if mkRat 7 10 ≤ confidence then "#22c55e"
  else if mkRat 1 2 ≤ confidence then "#f59e0b"
  else "#94a3b8"

/-! ## The Fallback-Prior Resolver -/

/-- The provenance tier of a resolved prior. -/
inductive SourceTier where
  | venue
  | series
  | league
deriving DecidableEq, Repr

/-- A pre-aggregated statistic handed to the resolver for one tier. -/
structure Aggregate where
  avg : ℚ
  stddev : ℚ
  sample_size : Nat
deriving DecidableEq, Repr

/-- The resolver's result: `{ avg, stddev, sample_size, source_tier }`,
always carrying the tier that produced it. -/
structure PriorBundle where
  avg : ℚ
  stddev : ℚ
  sample_size : Nat
  source_tier : SourceTier
deriving DecidableEq, Repr

/-- Modelled from the spec: the Fallback-Prior Resolver (spec §4.5) is
backend code (`feature_store.py` / `prediction_engine_api.py`) that is not
among the frontend sources; only its response shape (`fallback_level`,
`confidence` in `PreMatchResponse`) appears there.  Per the spec, `resolve`
"walks a fixed ladder: try venue-level aggregate (requires minimum sample
size N_min) → else series-level aggregate (minimum sample size M_min) →
else a static league-wide default", and every tier's bundle populates
`source_tier` and `sample_size`. -/
def resolve (venueAgg seriesAgg leagueDefault : Aggregate) (nMin mMin : Nat) : PriorBundle :=
  if nMin ≤ venueAgg.sample_size then
    ⟨venueAgg.avg, venueAgg.stddev, venueAgg.sample_size, .venue⟩
  else if mMin ≤ seriesAgg.sample_size then
    ⟨seriesAgg.avg, seriesAgg.stddev, seriesAgg.sample_size, .series⟩
  else
    ⟨leagueDefault.avg, leagueDefault.stddev, leagueDefault.sample_size, .league⟩

/-! ## Theorems -/

/-- Helper: every pass of a request through the axios instance performs
exactly one upstream HTTP call, whatever the cache holds — the request
interceptor only edits headers and returns the config, so dispatch is
unconditional. -/
theorem sendRequest_upstream_count (cache : EtagCache) (cfg : AxiosConfig) (up : Upstream) :
    (sendRequest cache cfg up).2.2 = 1 := by
  cases up <;> rfl

/-- C1, counterexample: a request whose key has a stored entry, answered
upstream by a status-500 failure, is re-rejected by the response
interceptor — the stored data is not served, refuting the claim that every
failed upstream response for a stored key yields the cached value. -/
theorem C1_counterexample :
    (let cfg : AxiosConfig := ⟨"get", "/matches", "{}", none⟩
     let cache : EtagCache := [(cacheKey "get" "/matches" "{}", ⟨"W1", "cached-matches"⟩)]
     let e : AxiosError := ⟨some ⟨500, "", none, cfg⟩, cfg⟩
     (List.lookup cfg.key cache).isSome = true
       ∧ responseRejected cache e = Except.error e) := by
  exact ⟨rfl, rfl⟩

/-- C1, amended: for an error whose key has a stored entry, the stored
value is served in place of the failure only when the failure is a 304
Not Modified — then the caller gets status 200 with exactly the cached
data; any failure with a different status, and any failure carrying no
response at all (a network failure), is re-rejected even though a cached
entry exists. -/
theorem C1_stale_served_only_on_304 (cache : EtagCache) (e : AxiosError)
    (entry : CacheEntry)
    (hc : List.lookup e.config.key cache = some entry) :
    (∀ resp, e.response = some resp → resp.status = 304 →
       responseRejected cache e = Except.ok { resp with status := 200, data := entry.data })
    ∧ (∀ resp, e.response = some resp → resp.status ≠ 304 →
       responseRejected cache e = Except.error e)
    ∧ (e.response = none → responseRejected cache e = Except.error e) := by
  refine ⟨?_, ?_, ?_⟩
  · intro resp hr h304
    simp [responseRejected, hr, h304, hc]
  · intro resp hr hne
    simp [responseRejected, hr, hne]
  · intro hr
    simp [responseRejected, hr]

/-- C1, witness for the amended theorem at concrete inputs: both the
304-serves-cache branch and the network-failure (no response) branch are
exercised against the same stored entry. -/
theorem C1_witness :
    (let cfg : AxiosConfig := ⟨"get", "/matches", "{}", none⟩
     let cache : EtagCache := [(cacheKey "get" "/matches" "{}", ⟨"W1", "cached-matches"⟩)]
     let resp : AxiosResponse := ⟨304, "", none, cfg⟩
     responseRejected cache ⟨some resp, cfg⟩
       = Except.ok { resp with status := 200, data := "cached-matches" }
     ∧ responseRejected cache ⟨none, cfg⟩ = Except.error ⟨none, cfg⟩) := by
  exact
    ⟨(C1_stale_served_only_on_304
        [(cacheKey "get" "/matches" "{}", ⟨"W1", "cached-matches"⟩)]
        ⟨some ⟨304, "", none, ⟨"get", "/matches", "{}", none⟩⟩, ⟨"get", "/matches", "{}", none⟩⟩
        ⟨"W1", "cached-matches"⟩ rfl).1
        ⟨304, "", none, ⟨"get", "/matches", "{}", none⟩⟩ rfl rfl,
     (C1_stale_served_only_on_304
        [(cacheKey "get" "/matches" "{}", ⟨"W1", "cached-matches"⟩)]
        ⟨none, ⟨"get", "/matches", "{}", none⟩⟩
        ⟨"W1", "cached-matches"⟩ rfl).2.2 rfl⟩

/-- C2, counterexample: two callers requesting the same key concurrently
inside one window (empty cache, same config) trigger two upstream
invocations, not one — the ETag cache has no singleflight registry. -/
theorem C2_counterexample :
    (let cfg : AxiosConfig := ⟨"get", "/predict/live", "{}", none⟩
     let up : Upstream := Upstream.ok 200 (some "W1") "payload"
     concurrentUpstreamCalls [] [(cfg, up), (cfg, up)] = 2) ∧ (2 ≠ 1) := by
  exact ⟨rfl, by decide⟩

/-- C2, amended: the axios ETag cache performs no request coalescing at
all — a batch of concurrent callers inside a single window performs one
upstream call per caller, regardless of how keys repeat or what the cache
holds. -/
theorem C2_one_upstream_call_per_caller (cache : EtagCache)
    (reqs : List (AxiosConfig × Upstream)) :
    concurrentUpstreamCalls cache reqs = reqs.length := by
  unfold concurrentUpstreamCalls
  induction reqs with
  | nil => rfl
  | cons head tail ih =>
    simp [List.map_cons, List.sum_cons, ih, sendRequest_upstream_count, Nat.add_comm]

/-- C3, counterexample: a request whose key has a stored entry still
performs one upstream HTTP call (carrying `If-None-Match`), not zero —
the cache never answers a request locally. -/
theorem C3_counterexample :
    (let cfg : AxiosConfig := ⟨"get", "/matches", "{}", none⟩
     let cache : EtagCache := [(cacheKey "get" "/matches" "{}", ⟨"W1", "cached-matches"⟩)]
     (List.lookup cfg.key cache).isSome = true
       ∧ (sendRequest cache cfg Upstream.notModified).2.2 = 1) ∧ (1 ≠ 0) := by
  exact ⟨⟨rfl, rfl⟩, by decide⟩

/-- C3, amended: there is no TTL / freshness short-circuit in the ETag
cache — every request goes upstream (exactly one HTTP call), and a stored
entry only causes the request to carry the stored etag in its
`If-None-Match` header so the upstream can answer 304. -/
theorem C3_always_revalidates (cache : EtagCache) (cfg : AxiosConfig) (up : Upstream)
    (entry : CacheEntry) (hc : List.lookup cfg.key cache = some entry) :
    (sendRequest cache cfg up).2.2 = 1
    ∧ (requestInterceptor cache cfg).ifNoneMatch = some entry.etag := by
  refine ⟨sendRequest_upstream_count cache cfg up, ?_⟩
  simp [requestInterceptor, hc]

/-- C3, witness for the amended theorem at a concrete input. -/
theorem C3_witness :
    ((sendRequest [(cacheKey "get" "/matches" "{}", ⟨"W1", "cached-matches"⟩)]
        ⟨"get", "/matches", "{}", none⟩ Upstream.notModified).2.2 = 1
     ∧ (requestInterceptor [(cacheKey "get" "/matches" "{}", ⟨"W1", "cached-matches"⟩)]
          ⟨"get", "/matches", "{}", none⟩).ifNoneMatch = some "W1") := by
  exact C3_always_revalidates
    [(cacheKey "get" "/matches" "{}", ⟨"W1", "cached-matches"⟩)]
    ⟨"get", "/matches", "{}", none⟩ Upstream.notModified ⟨"W1", "cached-matches"⟩ rfl

/-- C4, counterexample: the spec stage `innings_1_live` is not a key of
the live page's `STAGE_LABELS` map, while the map's key `live` is not
among the spec's seven `MatchStage` values — the two stage sets differ in
both directions. -/
theorem C4_counterexample :
    "innings_1_live" ∈ specMatchStages
    ∧ "innings_1_live" ∉ STAGE_LABELS.map Prod.fst
    ∧ "live" ∈ STAGE_LABELS.map Prod.fst
    ∧ "live" ∉ specMatchStages := by
  refine ⟨by decide, by decide, by decide, by decide⟩

/-- C4, amended: the set of `prediction_stage` keys handled by the live
page's stage-label map is exactly `{pre_toss, post_toss, innings_break,
live, completed, chase}` — the spec stages `innings_1_live`, `chase_live`
and `super_over` are absent from it, and `live` and `chase` are extra
relative to the spec's enumeration. -/
theorem C4_stage_label_keys :
    STAGE_LABELS.map Prod.fst
      = ["pre_toss", "post_toss", "innings_break", "live", "completed", "chase"]
    ∧ "innings_1_live" ∉ STAGE_LABELS.map Prod.fst
    ∧ "chase_live" ∉ STAGE_LABELS.map Prod.fst
    ∧ "super_over" ∉ STAGE_LABELS.map Prod.fst := by
  refine ⟨rfl, by decide, by decide, by decide⟩

/-- C5: the resolver picks the most specific qualifying tier — the venue
aggregate exactly when its sample size meets the venue minimum (series and
league are then never chosen), the series aggregate exactly when venue
fails its minimum and series meets its own, and the league default exactly
when both fail; the returned bundle reports the chosen tier and carries
that tier's statistics. -/
theorem C5_resolve_most_specific (v s l : Aggregate) (nMin mMin : Nat) :
    ((resolve v s l nMin mMin).source_tier = SourceTier.venue ↔ nMin ≤ v.sample_size)
    ∧ ((resolve v s l nMin mMin).source_tier = SourceTier.series
         ↔ (v.sample_size < nMin ∧ mMin ≤ s.sample_size))
    ∧ ((resolve v s l nMin mMin).source_tier = SourceTier.league
         ↔ (v.sample_size < nMin ∧ s.sample_size < mMin))
    ∧ (nMin ≤ v.sample_size →
         resolve v s l nMin mMin = ⟨v.avg, v.stddev, v.sample_size, SourceTier.venue⟩) := by
  unfold resolve
  by_cases hv : nMin ≤ v.sample_size
  · simp [hv]
  · by_cases hs : mMin ≤ s.sample_size
    · simp [hv, hs, Nat.lt_of_not_le hv]
    · simp [hv, hs, Nat.lt_of_not_le hv, Nat.lt_of_not_le hs]

/-- C5, witness at the spec's Scenario E input: venue sample_size 2 below
minimum 5 and series sample_size 0 below minimum 1 fall through to the
league default, and the bundle reports `source_tier = league`. -/
theorem C5_witness :
    (resolve ⟨160, 25, 2⟩ ⟨150, 20, 0⟩ ⟨160, 25, 0⟩ 5 1).source_tier = SourceTier.league :=
  (C5_resolve_most_specific ⟨160, 25, 2⟩ ⟨150, 20, 0⟩ ⟨160, 25, 0⟩ 5 1).2.2.1.mpr
    ⟨by decide, by decide⟩

/-- C6, counterexample: a live response carrying only a numeric
`projected_total` (no `prediction_stage`, no error) renders the bare
number on the "Total score" card while the provenance row does not render
— a metric value is delivered without a freshness/fallback marker. -/
theorem C6_counterexample :
    (let r : LiveResponse := ⟨some 172, none, none, none⟩
     scoreNumberRendered r (some "score") = true ∧ stageMarkerRendered r = false) := by
  exact ⟨rfl, rfl⟩

/-- C6, amended: when a numeric result renders, the provenance row renders
exactly when the response's `prediction_stage` is present, non-empty and
among the `STAGE_LABELS` keys — nothing ties the numeric's presence to the
marker's, so a response without a known stage shows the number bare. -/
theorem C6_marker_requires_known_stage (r : LiveResponse) (t : Option String)
    (h : scoreNumberRendered r t = true) :
    stageMarkerRendered r = true
      ↔ ∃ s, r.prediction_stage = some s ∧ s ≠ ""
          ∧ (List.lookup s STAGE_LABELS).isSome = true := by
  have herr : r.error.isNone = true := by
    simp only [scoreNumberRendered, Bool.and_eq_true] at h
    exact h.1.1
  simp only [stageMarkerRendered, herr, Bool.true_and]
  cases hst : r.prediction_stage with
  | none => simp
  | some s => simp [Bool.and_eq_true]

/-- C6, witness for the amended theorem at a concrete input: with a known
live stage the marker does render alongside the numeric result. -/
theorem C6_witness :
    stageMarkerRendered ⟨some 172, some "live", none, none⟩ = true :=
  (C6_marker_requires_known_stage ⟨some 172, some "live", none, none⟩ (some "score") rfl).mpr
    ⟨"live", rfl, by decide, by decide⟩

/-- C7, counterexample: `PreMatchPage`'s `handlePrediction` issues its
`/update-match-context` call through a direct `fetch` to the backend URL,
bypassing the shared `api` instance and its ETag cache. -/
theorem C7_counterexample :
    (⟨"PreMatchPage", "/update-match-context", RequestMechanism.directFetch⟩ : RequestSite)
      ∈ requestSites
    ∧ RequestMechanism.directFetch ≠ RequestMechanism.sharedApi := by
  exact ⟨by decide, by decide⟩

/-- C7, amended: only the prediction revision of `LiveMatchPage` and
`T20WorldCupPage` route their requests through the shared `api` axios
instance; every call site of `PreMatchPage` and of the decision-assistant
revision of `LiveMatchPage` is a direct `fetch` to the backend URL that
bypasses the caching layer. -/
theorem C7_api_usage_by_page (site : RequestSite) (hs : site ∈ requestSites) :
    site.mechanism = RequestMechanism.sharedApi
      ↔ (site.page = "LiveMatchPage" ∨ site.page = "T20WorldCupPage") := by
  fin_cases hs <;> simp

/-- C7, witness for the amended theorem at a concrete call site. -/
theorem C7_witness :
    (⟨"LiveMatchPage", "/matches", RequestMechanism.sharedApi⟩ : RequestSite).mechanism
      = RequestMechanism.sharedApi :=
  (C7_api_usage_by_page ⟨"LiveMatchPage", "/matches", RequestMechanism.sharedApi⟩
    (by decide)).mpr (Or.inl rfl)

/-- C8: ETag round-trip of the axios cache.  After a response for key `k`
carrying an etag header is stored, (a) any later request with the same key
sends the stored etag in `If-None-Match`; (b) a 304 answer for that key
resolves to a status-200 response whose data is exactly the stored data;
and (c) a 304 for a key with no stored entry propagates the error
unchanged. -/
theorem C8_etag_roundtrip
    (cache : EtagCache) (r : AxiosResponse) (et : String)
    (het : r.etagHeader = some et)
    (c2 : AxiosConfig) (hkey : c2.key = r.config.key)
    (e : AxiosError) (resp : AxiosResponse)
    (he : e.response = some resp) (h304 : resp.status = 304)
    (hekey : e.config.key = r.config.key)
    (cache0 : EtagCache) (e0 : AxiosError) (resp0 : AxiosResponse)
    (he0 : e0.response = some resp0) (h3040 : resp0.status = 304)
    (hmiss : List.lookup e0.config.key cache0 = none) :
    (requestInterceptor (responseFulfilled cache r).1 c2).ifNoneMatch = some et
    ∧ responseRejected (responseFulfilled cache r).1 e
        = Except.ok { resp with status := 200, data := r.data }
    ∧ responseRejected cache0 e0 = Except.error e0 := by
  have hstore : (responseFulfilled cache r).1 = (r.config.key, ⟨et, r.data⟩) :: cache := by
    simp [responseFulfilled, het]
  refine ⟨?_, ?_, ?_⟩
  · rw [hstore]
    simp [requestInterceptor, List.lookup, hkey]
  · rw [hstore]
    simp [responseRejected, he, h304, List.lookup, hekey]
  · simp [responseRejected, he0, h3040, hmiss]

/-- C8, witness for the round-trip theorem at a concrete transcript. -/
theorem C8_witness :
    (requestInterceptor
        (responseFulfilled ([] : EtagCache)
          ⟨200, "fresh", some "W1", ⟨"get", "/matches", "{}", none⟩⟩).1
        ⟨"get", "/matches", "{}", none⟩).ifNoneMatch = some "W1"
    ∧ responseRejected
        (responseFulfilled ([] : EtagCache)
          ⟨200, "fresh", some "W1", ⟨"get", "/matches", "{}", none⟩⟩).1
        ⟨some ⟨304, "", none, ⟨"get", "/matches", "{}", none⟩⟩,
         ⟨"get", "/matches", "{}", none⟩⟩
        = Except.ok ⟨200, "fresh", none, ⟨"get", "/matches", "{}", none⟩⟩
    ∧ responseRejected ([] : EtagCache)
        ⟨some ⟨304, "", none, ⟨"get", "/matches", "{}", none⟩⟩,
         ⟨"get", "/matches", "{}", none⟩⟩
        = Except.error
            ⟨some ⟨304, "", none, ⟨"get", "/matches", "{}", none⟩⟩,
             ⟨"get", "/matches", "{}", none⟩⟩ :=
  C8_etag_roundtrip ([] : EtagCache)
    ⟨200, "fresh", some "W1", ⟨"get", "/matches", "{}", none⟩⟩ "W1" rfl
    ⟨"get", "/matches", "{}", none⟩ rfl
    ⟨some ⟨304, "", none, ⟨"get", "/matches", "{}", none⟩⟩,
     ⟨"get", "/matches", "{}", none⟩⟩
    ⟨304, "", none, ⟨"get", "/matches", "{}", none⟩⟩ rfl rfl rfl
    ([] : EtagCache)
    ⟨some ⟨304, "", none, ⟨"get", "/matches", "{}", none⟩⟩,
     ⟨"get", "/matches", "{}", none⟩⟩
    ⟨304, "", none, ⟨"get", "/matches", "{}", none⟩⟩ rfl rfl rfl

/-- The safety property of the poller: whenever an interval is registered,
the last result's stage is present, non-empty and not `"completed"`. -/
def PollInvariant (s : PollState) : Prop :=
  s.poll = true → ∃ st, s.stage = some st ∧ st ≠ "" ∧ st ≠ "completed"

/-- Helper: one step of the poller preserves the safety property. -/
theorem stepEvent_preserves (s : PollState) (e : PageEvent) (hI : PollInvariant s) :
    PollInvariant (stepEvent s e) := by
  cases e with
  | tick =>
    intro hp
    by_cases h : s.poll = true
    · have hs : stepEvent s PageEvent.tick = { s with requests := s.requests + 1 } := by
        simp [stepEvent, h]
      rw [hs] at hp ⊢
      exact hI hp
    · have hs : stepEvent s PageEvent.tick = s := by
        simp [stepEvent, h]
      rw [hs] at hp ⊢
      exact hI hp
  | render ns dm =>
    intro hp
    have hstage : (stepEvent s (PageEvent.render ns dm)).stage = ns := by
      simp [stepEvent]
    have hpoll : (stepEvent s (PageEvent.render ns dm)).poll
        = if dm then false else (if ns = s.stage then s.poll else stageStartsPoll ns) := by
      simp [stepEvent]
    rw [hpoll] at hp
    rw [hstage]
    by_cases hdm : dm = true
    · simp [hdm] at hp
    · simp [hdm] at hp
      by_cases hst : ns = s.stage
      · rw [if_pos hst] at hp
        rw [hst]
        exact hI hp
      · rw [if_neg hst] at hp
        cases ns with
        | none => simp [stageStartsPoll] at hp
        | some st =>
          simp [stageStartsPoll, Bool.and_eq_true, Bool.not_eq_true',
                beq_eq_false_iff_ne] at hp
          exact ⟨st, rfl, hp.1, hp.2⟩

/-- Helper: the safety property holds after any event sequence from a safe
start. -/
theorem foldl_preserves_inv (events : List PageEvent) (s : PollState)
    (hI : PollInvariant s) : PollInvariant (events.foldl stepEvent s) := by
  induction events generalizing s with
  | nil => exact hI
  | cons e es ih => exact ih _ (stepEvent_preserves s e hI)

/-- C9: after any sequence of commits and interval ticks from the initial
page state, (a) the polling interval is registered only while the last
result's `prediction_stage` is present, non-empty and not `"completed"`;
(b) a commit in which the date or match changed always leaves the interval
cleared; and (c) while no interval is registered, a tick issues no
background `/predict/live` request. -/
theorem C9_poll_only_while_live (events : List PageEvent) :
    ((runEvents events).poll = true →
       ∃ st, (runEvents events).stage = some st ∧ st ≠ "" ∧ st ≠ "completed")
    ∧ (∀ ns, (stepEvent (runEvents events) (PageEvent.render ns true)).poll = false)
    ∧ ((runEvents events).poll = false →
       (stepEvent (runEvents events) PageEvent.tick).requests
         = (runEvents events).requests) := by
  refine ⟨?_, ?_, ?_⟩
  · exact foldl_preserves_inv events initPollState (by intro h; simp [initPollState] at h)
  · intro ns
    simp [stepEvent]
  · intro hp
    simp [stepEvent, hp]

/-- C9, witness: after a commit that brings a live stage, the registered
poller implies the stage really is live; and a date change clears it. -/
theorem C9_witness :
    (∃ st, (runEvents [PageEvent.render (some "live") false]).stage = some st
       ∧ st ≠ "" ∧ st ≠ "completed")
    ∧ (stepEvent (runEvents [PageEvent.render (some "live") false])
        (PageEvent.render (some "completed") true)).poll = false :=
  ⟨(C9_poll_only_while_live [PageEvent.render (some "live") false]).1 (by decide),
   (C9_poll_only_while_live [PageEvent.render (some "live") false]).2.1 (some "completed")⟩

/-- C10, counterexample: at `confidence = 0.52` (inside `[0,1]`) the
standalone `ConfidenceBadge` computes the gray color while the variant
after `Header` computes amber — the two are not equivalent. -/
theorem C10_counterexample :
    confidenceBadgeColor (mkRat 13 25) = "#94a3b8"
    ∧ headerBadgeColor (mkRat 13 25) = "#f59e0b"
    ∧ confidenceBadgeColor (mkRat 13 25) ≠ headerBadgeColor (mkRat 13 25)
    ∧ (0 : ℚ) ≤ mkRat 13 25 ∧ (mkRat 13 25 : ℚ) ≤ 1 := by
  refine ⟨by decide, by decide, by decide, by decide, by decide⟩

/-- C10, amended: the two badge implementations agree everywhere except on
the band `0.5 ≤ confidence < 0.55`, where the standalone component shows
the gray "Early estimate" color and the `Header` variant shows amber; in
particular they agree at and above the shared 0.7 threshold. -/
theorem C10_agree_outside_band (c : ℚ) :
    (¬ (mkRat 1 2 ≤ c ∧ c < mkRat 11 20) → confidenceBadgeColor c = headerBadgeColor c)
    ∧ ((mkRat 1 2 ≤ c ∧ c < mkRat 11 20) →
        confidenceBadgeColor c = "#94a3b8" ∧ headerBadgeColor c = "#f59e0b") := by
  have e7 : (mkRat 7 10 : ℚ) = 7/10 := by norm_num [Rat.mkRat_eq_div]
  have e55 : (mkRat 11 20 : ℚ) = 11/20 := by norm_num [Rat.mkRat_eq_div]
  have e5 : (mkRat 1 2 : ℚ) = 1/2 := by norm_num [Rat.mkRat_eq_div]
  unfold confidenceBadgeColor headerBadgeColor
  rw [e7, e55, e5]
  by_cases h7 : (7 : ℚ)/10 ≤ c
  · rw [if_pos h7, if_pos h7]
    refine ⟨fun _ => rfl, ?_⟩
    rintro ⟨_, hlt⟩
    exfalso
    linarith
  · rw [if_neg h7, if_neg h7]
    by_cases h55 : (11 : ℚ)/20 ≤ c
    · rw [if_pos h55, if_pos (show (1 : ℚ)/2 ≤ c by linarith)]
      refine ⟨fun _ => rfl, ?_⟩
      rintro ⟨_, hlt⟩
      exfalso
      linarith
    · rw [if_neg h55]
      by_cases h5 : (1 : ℚ)/2 ≤ c
      · rw [if_pos h5]
        exact ⟨fun hn => absurd ⟨h5, not_le.mp h55⟩ hn, fun _ => ⟨rfl, rfl⟩⟩
      · rw [if_neg h5]
        exact ⟨fun _ => rfl, fun hband => absurd hband.1 h5⟩

/-- C10, witness for the amended theorem at `confidence = 0.9`, outside
the disagreement band. -/
theorem C10_witness :
    confidenceBadgeColor (mkRat 9 10) = headerBadgeColor (mkRat 9 10) :=
  (C10_agree_outside_band (mkRat 9 10)).1 (by decide)
